import Mathlib

/-!
# Verification of the teacher-server authentication / session-token engine

Shallow embedding of `src/services/auth_service.py` (class `AuthService`)
together with the parts of `src/database/schema.py` it reads and writes
(`User`, `RefreshToken`, `TeacherRequest` rows).

Modelling conventions:
* Machine time (`datetime.utcnow()`) is an explicit `Nat` parameter `now`,
  counted in seconds; `timedelta(minutes = m)` is `m * 60` and
  `timedelta(days = d)` is `d * 86400`.
* Randomness (`uuid.uuid4()`, `bcrypt.gensalt()`) is passed in explicitly
  (an `Entropy` record / a `salt` string).
* Exceptions are `Except Err`; a Python `raise ValueError(f"ctx: {e}")`
  re-wrap is `Err.wrapped ctx e`, keeping the original error kind the way
  the Python message string keeps the original message.
* The database session is a value of type `Db`; `query(...).first()` is
  `List.find?` over the rows in insertion order, `db.add` appends,
  ORM attribute mutation plus `commit` is a `List.map` keyed on the
  primary key of the mutated row.
* The external `bcrypt` library is modelled by `bcrypt_hashpw` /
  `bcrypt_checkpw` below: a hash string is `"$2b$12$" ++ salt ++ "$" ++
  digest`, `checkpw` first parses the stored string and raises
  `Invalid salt` (a Python `ValueError`) when it is not of that shape,
  exactly as `bcrypt.checkpw` does on a malformed hash; a real bcrypt
  salt is dollar-free base64, which the parse relies on.
* The external `PyJWT` library is modelled by `TokenStr`: a token string
  is either a well-formed signed payload or garbage; `jwt.decode`
  checks the signing key, then expiry (`ExpiredSignatureError` iff
  `now > exp`), mirroring `jwt.encode` / `jwt.decode` with HS256.
-/

/-! ## Model of the external bcrypt library -/

/-- Errors of the external libraries: `bcrypt.checkpw`/`bcrypt.hashpw`
raise `ValueError("Invalid salt")` on a malformed stored hash. -/
inductive BcryptErr where
  | invalidSalt
  deriving Repr, DecidableEq

/-- Split a character list at the first `'$'`; `none` when there is no
`'$'`.  Used to separate the salt from the digest in a stored hash. -/
def splitAtDollar : List Char → Option (List Char × List Char)
  | [] => none
  | c :: rest =>
    if c = '$' then some ([], rest)
    else (splitAtDollar rest).map (fun p => (c :: p.1, p.2))

/-- `bcrypt.hashpw(password, salt)`: the modulus/cost header, the salt,
and a digest that binds salt and password.  (The model's digest is the
password itself — one-wayness is irrelevant to the verified claims, only
the parse structure and the salt/password dependence matter.) -/
def bcrypt_hashpw (password salt : String) : String :=
  ⟨'$' :: '2' :: 'b' :: '$' :: '1' :: '2' :: '$' :: (salt.data ++ '$' :: password.data)⟩

/-- Parse a stored bcrypt hash into `(salt, digest)`; `none` on anything
not of the form `"$2b$12$" ++ salt ++ "$" ++ digest`. -/
def parseBcryptHash (h : String) : Option (String × String) :=
  match h.data with
  | '$' :: '2' :: 'b' :: '$' :: '1' :: '2' :: '$' :: rest =>
    (splitAtDollar rest).map (fun p => (⟨p.1⟩, ⟨p.2⟩))
  | _ => none

/-- `bcrypt.checkpw(password, hashed)`: parse the stored hash (raising
`ValueError("Invalid salt")` when malformed, as the real library does)
and compare the recomputed digest. -/
def bcrypt_checkpw (password hashed : String) : Except BcryptErr Bool :=
  match parseBcryptHash hashed with
  | none => .error .invalidSalt
  | some p => .ok (p.2 == password)

/-- A well-formed bcrypt salt: base64 output of `bcrypt.gensalt()`,
in particular dollar-free. -/
def validSalt (salt : String) : Prop := '$' ∉ salt.data

instance (salt : String) : Decidable (validSalt salt) := by
  unfold validSalt; infer_instance

/-! ## Permissions (`AuthService._get_user_permissions`) -/

/-- The capability map built by `_get_user_permissions`
(`src/services/auth_service.py:768`), one Boolean per key of the Python
dict. -/
structure Permissions where
  can_view_students : Bool
  can_edit_students : Bool
  can_create_students : Bool
  can_delete_students : Bool
  can_view_communications : Bool
  can_create_communications : Bool
  can_edit_communications : Bool
  can_delete_communications : Bool
  can_manage_teachers : Bool
  can_manage_departments : Bool
  can_manage_system : Bool
  deriving Repr, DecidableEq

/-- The initial all-`False` dict of `_get_user_permissions`. -/
def noPermissions : Permissions :=
  { can_view_students := false
    can_edit_students := false
    can_create_students := false
    can_delete_students := false
    can_view_communications := false
    can_create_communications := false
    can_edit_communications := false
    can_delete_communications := false
    can_manage_teachers := false
    can_manage_departments := false
    can_manage_system := false }

/-- The all-`True` map the `admin` branch produces. -/
def allPermissions : Permissions :=
  { can_view_students := true
    can_edit_students := true
    can_create_students := true
    can_delete_students := true
    can_view_communications := true
    can_create_communications := true
    can_edit_communications := true
    can_delete_communications := true
    can_manage_teachers := true
    can_manage_departments := true
    can_manage_system := true }

/-! ## Database rows (`src/database/schema.py`), restricted to the
columns the authentication engine reads or writes. -/

/-- `users` table row (`schema.py:12`), the columns touched by
`AuthService`. -/
structure UserRec where
  id : String
  email : String
  full_name : String
  phone : String
  role : String
  max_students : Nat
  password_hash : String
  is_active : Bool
  created_at : Nat
  updated_at : Nat
  last_login : Option Nat
  deriving Repr, DecidableEq

/-- `refresh_tokens` table row (`schema.py:48`). -/
structure RefreshTokenRec where
  id : String
  user_id : String
  token_hash : String
  expires_at : Nat
  created_at : Nat
  revoked_at : Option Nat
  is_revoked : Bool
  deriving Repr, DecidableEq

/-- `teacher_requests` table row (`schema.py:142`), the columns the
login path reads. -/
structure TeacherRequestRec where
  id : String
  email : String
  full_name : String
  status : String
  deriving Repr, DecidableEq

/-- The database session state visible to the authentication engine. -/
structure Db where
  users : List UserRec
  refresh_tokens : List RefreshTokenRec
  teacher_requests : List TeacherRequestRec
  deriving Repr, DecidableEq

/-! ## Model of PyJWT tokens -/

/-- A decoded JWT payload.  The Python payload is a dict; the claims the
engine writes are `sub`, `email`, `role`, `name`, `permissions` (access
tokens only), and always `exp`, `iat`, `type`, `jti` (except the
password-reset token, which carries no `jti`). -/
structure JwtPayload where
  sub : Option String
  email : Option String
  role : Option String
  name : Option String
  permissions : Option Permissions
  exp : Nat
  iat : Nat
  typ : String
  jti : Option String
  deriving Repr, DecidableEq

/-- A token string: `jwt.encode` output is a signed payload; any other
string is garbage that `jwt.decode` rejects as invalid. -/
inductive TokenStr where
  | signed (payload : JwtPayload) (sigKey : String)
  | malformed (raw : String)
  deriving Repr, DecidableEq

/-- `jwt.encode(payload, key, algorithm="HS256")`. -/
def jwt_encode (payload : JwtPayload) (key : String) : TokenStr :=
  .signed payload key

/-- Token-level errors of `jwt.decode`. -/
inductive JwtErr where
  | expiredSignature
  | invalidToken
  deriving Repr, DecidableEq

/-- `jwt.decode(token, key, algorithms=["HS256"])`: signature first
(`InvalidTokenError` on garbage or key mismatch), then the `exp` claim
(`ExpiredSignatureError` iff `now > exp`). -/
def jwt_decode (token : TokenStr) (key : String) (now : Nat) :
    Except JwtErr JwtPayload :=
  match token with
  | .malformed _ => .error .invalidToken
  | .signed payload sigKey =>
    if sigKey ≠ key then .error .invalidToken
    else if now > payload.exp then .error .expiredSignature
    else .ok payload

/-- Python's `str.strip()`: drop leading and trailing whitespace. -/
def pyStrip (s : String) : String :=
  ⟨((s.data.dropWhile Char.isWhitespace).reverse.dropWhile
      Char.isWhitespace).reverse⟩

/-- Python's `str.lower()` (character-wise lowercasing). -/
def pyLower (s : String) : String := ⟨s.data.map Char.toLower⟩

/-! ## Error taxonomy of `AuthService`

Every failure in `auth_service.py` is a `raise ValueError(message)`; the
constructors below stand for the distinct message templates.  A
`raise ValueError(f"context: {str(e)}")` re-wrap (the blanket
`except Exception` handlers) is `Err.wrapped ctx e`. -/

/-- The wrapping contexts: the `f"...: {str(e)}"` prefixes of the
blanket exception handlers. -/
inductive WrapCtx where
  | loginFailed          -- "Ошибка входа"
  | registrationFailed   -- "Ошибка регистрации"
  | gettingUserFailed    -- "Ошибка получения пользователя"
  | refreshFailed        -- "Ошибка обновления токенов"
  | logoutFailed         -- "Ошибка выхода"
  | passwordChangeFailed -- "Ошибка смены пароля"
  | passwordResetFailed  -- "Ошибка сброса пароля"
  deriving Repr, DecidableEq

/-- The error kinds (`ValueError` message templates) of `AuthService`. -/
inductive Err where
  | jwtExpired                -- "Срок действия токена истек"
  | jwtInvalid                -- "Недействительный токен: ..."
  | bcryptInvalidSalt         -- bcrypt's ValueError("Invalid salt")
  | emailNotFound             -- "Пользователь с таким email не найден"
  | awaitingActivation        -- "Аккаунт ожидает активации администратором"
  | requestRejected           -- "Ваша заявка была отклонена администратором"
  | inactiveContactAdmin      -- "Пользователь неактивен. Обратитесь к администратору."
  | wrongPassword             -- "Неверный пароль"
  | invalidEmailFormat        -- "Неверный формат email"
  | passwordTooShort          -- "Пароль должен содержать минимум 6 символов"
  | nameTooShort              -- "Имя должно содержать минимум 2 символа"
  | emailTaken                -- "Пользователь с таким email уже существует"
  | wrongTokenKind            -- "Неверный тип токена"
  | malformedPayload          -- "Неверный токен"
  | revokedToken              -- "Токен был отозван"
  | userNotFound              -- "Пользователь не найден"
  | userInactive              -- "Пользователь неактивен"
  | refreshNotFoundOrExpired  -- "Refresh токен не найден или истек"
  | userNotFoundOrInactive    -- "Пользователь не найден или неактивен"
  | userUndetermined          -- "Не удалось определить пользователя"
  | resetTokenExpired         -- "Токен сброса пароля истек"
  | resetTokenInvalid         -- "Недействительный токен сброса пароля"
  | wrapped (ctx : WrapCtx) (e : Err)
  deriving Repr, DecidableEq

/-! ## `AuthService` -/

/-- Constructor configuration of `AuthService.__init__`
(`auth_service.py:18`): the signing secret and the two lifetimes
(defaults: 24 h of access-token minutes, 30 refresh-token days). -/
structure AuthConfig where
  secret_key : String
  access_token_expire_minutes : Nat
  refresh_token_expire_days : Nat
  deriving Repr, DecidableEq

/-- The random values one service call draws: `uuid.uuid4()` for the
access-token `jti`, `uuid.uuid4()` for the refresh-token id, and
`bcrypt.gensalt()` for hashing the stored refresh-token id. -/
structure Entropy where
  access_jti : String
  refresh_jti : String
  token_salt : String
  deriving Repr, DecidableEq

/-- The claims the login/refresh paths put into `token_data`
(`auth_service.py:153`): subject id, email, role, display name and the
derived permission map. -/
structure TokenData where
  sub : String
  email : String
  role : String
  name : String
  permissions : Permissions
  deriving Repr, DecidableEq

/-- The account snapshot dict returned to callers: the columns of the
modelled `UserRec` that both the login-path inline dict
(`auth_service.py:168`) and `_user_to_dict` (`auth_service.py:807`)
project, plus the derived permissions. -/
structure UserDict where
  id : String
  email : String
  full_name : String
  phone : String
  role : String
  max_students : Nat
  is_active : Bool
  created_at : Nat
  last_login : Option Nat
  permissions : Permissions
  deriving Repr, DecidableEq

/-- The token-pair response of login / refresh (`auth_service.py:185`,
`auth_service.py:456`). -/
structure TokenResponse where
  access_token : TokenStr
  refresh_token : TokenStr
  token_type : String
  expires_in : Nat
  user : UserDict
  message : String
  deriving Repr, DecidableEq

/-- Input of `register` (`auth_service.py:202`): the `user_data` keys
the modelled columns use, with the same defaults as the `.get` calls. -/
structure RegisterData where
  email : String
  password : String
  full_name : String
  role : String
  phone : String
  max_students : Nat
  deriving Repr, DecidableEq

namespace AuthService

/-- `_hash_password` (`auth_service.py:26`): bcrypt with a fresh salt,
the salt made an explicit argument. -/
def hash_password (password salt : String) : String :=
  bcrypt_hashpw password salt

/-- `_verify_password` (`auth_service.py:32`): a bare
`bcrypt.checkpw` call — any bcrypt exception propagates. -/
def verify_password (plain_password hashed_password : String) :
    Except BcryptErr Bool :=
  bcrypt_checkpw plain_password hashed_password

/-- `_hash_token` (`auth_service.py:99`). -/
def hash_token (token salt : String) : String :=
  bcrypt_hashpw token salt

/-- `decode_token` (`auth_service.py:107`): `jwt.decode`, with the two
PyJWT exceptions translated to the service's `ValueError`s. -/
def decode_token (cfg : AuthConfig) (token : TokenStr) (now : Nat) :
    Except Err JwtPayload :=
  match jwt_decode token cfg.secret_key now with
  | .error .expiredSignature => .error .jwtExpired
  | .error .invalidToken => .error .jwtInvalid
  | .ok payload => .ok payload

/-- `_create_access_token` (`auth_service.py:44`): copy the claims, add
`exp` (now + `expires_delta`, defaulting to the configured access
lifetime in minutes), `iat`, `type="access"` and a fresh `jti`. -/
def create_access_token (cfg : AuthConfig) (data : TokenData) (now : Nat)
    (jti : String) (expires_delta : Option Nat) : TokenStr :=
  let exp := match expires_delta with
    | some d => now + d
    | none => now + cfg.access_token_expire_minutes * 60
  jwt_encode
    { sub := some data.sub
      email := some data.email
      role := some data.role
      name := some data.name
      permissions := some data.permissions
      exp := exp
      iat := now
      typ := "access"
      jti := some jti } cfg.secret_key

/-- `_create_refresh_token` (`auth_service.py:63`): a `"refresh"`-typed
token whose `jti` is the (explicitly passed) fresh uuid, plus that id. -/
def create_refresh_token (cfg : AuthConfig) (user_id : String) (now : Nat)
    (refresh_jti : String) : TokenStr × String :=
  let expires_at := now + cfg.refresh_token_expire_days * 86400
  (jwt_encode
    { sub := some user_id
      email := none
      role := none
      name := none
      permissions := none
      exp := expires_at
      iat := now
      typ := "refresh"
      jti := some refresh_jti } cfg.secret_key,
   refresh_jti)

/-- `_save_refresh_token` (`auth_service.py:80`): insert and commit a
fresh unrevoked `refresh_tokens` row.  Every caller omits `expires_at`,
so the row expiry is recomputed as now + the configured refresh days. -/
def save_refresh_token (cfg : AuthConfig) (db : Db) (user_id token_id : String)
    (salt : String) (now : Nat) : Db :=
  let rec_ : RefreshTokenRec :=
    { id := token_id
      user_id := user_id
      token_hash := hash_token token_id salt
      expires_at := now + cfg.refresh_token_expire_days * 86400
      created_at := now
      revoked_at := none
      is_revoked := false }
  { db with refresh_tokens := db.refresh_tokens ++ [rec_] }

/-- `_get_user_permissions` (`auth_service.py:768`): start from the
all-`False` dict; `admin` flips everything, `teacher` and `student` flip
their fixed subsets; any other role falls through all branches and the
initial dict is returned unchanged. -/
def get_user_permissions (user : UserRec) : Permissions :=
  if user.role == "admin" then allPermissions
  else if user.role == "teacher" then
    { noPermissions with
        can_view_students := true
        can_create_students := true
        can_edit_students := true
        can_view_communications := true
        can_create_communications := true
        can_edit_communications := true }
  else if user.role == "student" then
    { noPermissions with
        can_view_students := true
        can_view_communications := true }
  else noPermissions

/-- `_user_to_dict` (`auth_service.py:807`), projected to the modelled
columns. -/
def user_to_dict (user : UserRec) : UserDict :=
  { id := user.id
    email := user.email
    full_name := user.full_name
    phone := user.phone
    role := user.role
    max_students := user.max_students
    is_active := user.is_active
    created_at := user.created_at
    last_login := user.last_login
    permissions := get_user_permissions user }

/-- The row transformer of the rotation step
(`auth_service.py:447` – `449`): `stored_token.is_revoked = True;
stored_token.revoked_at = utcnow()` — an `UPDATE` keyed on the primary
key alone. -/
def revokeById (sid : String) (now : Nat) (r : RefreshTokenRec) :
    RefreshTokenRec :=
  if r.id == sid then { r with is_revoked := true, revoked_at := some now }
  else r

/-- The row transformer of the logout-everywhere bulk `UPDATE`
(`auth_service.py:485` – `491`): filtered on
`user_id = uid AND is_revoked = false`. -/
def revokeByUser (uid : String) (now : Nat) (r : RefreshTokenRec) :
    RefreshTokenRec :=
  if r.user_id == uid && r.is_revoked == false
  then { r with is_revoked := true, revoked_at := some now }
  else r

/-- `_is_token_revoked` (`auth_service.py:380`): is there a
`refresh_tokens` row with this id and `is_revoked = true`? -/
def is_token_revoked (jti : String) (db : Db) : Bool :=
  (db.refresh_tokens.find? (fun r => r.id == jti && r.is_revoked)).isSome

/-- `get_current_user` (`auth_service.py:347`): decode, require
`type == "access"`, require a subject, reject a revoked `jti`, load the
user, require it active.  The trailing `except Exception` wraps every
failure in "Ошибка получения пользователя". -/
def get_current_user (cfg : AuthConfig) (token : TokenStr) (db : Db)
    (now : Nat) : Except Err UserDict :=
  let res : Except Err UserDict :=
    match decode_token cfg token now with
    | .error e => .error e
    | .ok payload =>
      if payload.typ ≠ "access" then .error .wrongTokenKind
      else
        match payload.sub with
        | none => .error .malformedPayload
        | some user_id =>
          if user_id = "" then .error .malformedPayload
          else
            let jtiRevoked : Bool := match payload.jti with
              | some j => j != "" && is_token_revoked j db
              | none => false
            if jtiRevoked then .error .revokedToken
            else
              match db.users.find? (fun u => u.id == user_id) with
              | none => .error .userNotFound
              | some user =>
                if user.is_active = false then .error .userInactive
                else .ok (user_to_dict user)
  res.mapError (Err.wrapped .gettingUserFailed)

/-- `validate_token` (`auth_service.py:389`). -/
def validate_token (cfg : AuthConfig) (token : TokenStr) (db : Db)
    (now : Nat) : Bool :=
  match get_current_user cfg token db now with
  | .ok _ => true
  | .error _ => false

/-- `login_with_email_password` (`auth_service.py:117`): find the user
by email, check activity (with the teacher-request sub-cases), check the
password, stamp `last_login`, mint an access token and a refresh token,
persist the refresh record.  Its `ValueError`s are re-raised unwrapped. -/
def login_with_email_password (cfg : AuthConfig) (email password : String)
    (db : Db) (now : Nat) (e : Entropy) : Except Err TokenResponse × Db :=
  match db.users.find? (fun u => u.email == email) with
  | none => (.error .emailNotFound, db)
  | some user =>
    if user.is_active = false then
      match db.teacher_requests.find? (fun t => t.email == email) with
      | some tr =>
        if tr.status == "pending" then (.error .awaitingActivation, db)
        else if tr.status == "rejected" then (.error .requestRejected, db)
        else (.error .inactiveContactAdmin, db)
      | none => (.error .inactiveContactAdmin, db)
    else
      match verify_password password user.password_hash with
      | .error _ => (.error .bcryptInvalidSalt, db)
      | .ok pwOk =>
        if pwOk = false then (.error .wrongPassword, db)
        else
          -- `user.last_login = utcnow(); db.commit()`
          let user1 := { user with last_login := some now }
          let db1 := { db with users := db.users.map (fun v =>
            if v.id == user.id then { v with last_login := some now } else v) }
          let perms := get_user_permissions user1
          let data : TokenData :=
            { sub := user1.id, email := user1.email, role := user1.role
              name := user1.full_name, permissions := perms }
          let access_token := create_access_token cfg data now e.access_jti none
          let (refresh_token, refresh_token_id) :=
            create_refresh_token cfg user1.id now e.refresh_jti
          let db2 := save_refresh_token cfg db1 user1.id refresh_token_id e.token_salt now
          (.ok
            { access_token := access_token
              refresh_token := refresh_token
              token_type := "bearer"
              expires_in := cfg.access_token_expire_minutes * 60
              user := user_to_dict user1
              message := "Вход выполнен успешно" }, db2)

/-- The read half of `refresh_tokens` (`auth_service.py:404` – `433`):
decode the refresh token, require `type == "refresh"`, require subject
and `jti`, `SELECT` the stored row filtered on
`id = jti AND user_id = sub AND is_revoked = false AND expires_at > now`
(the `RevokedOrUnknown` point), load the user, require it active.
Performs no writes. -/
def refresh_read (cfg : AuthConfig) (refresh_tok : TokenStr) (db : Db)
    (now : Nat) : Except Err (RefreshTokenRec × UserRec) :=
  match decode_token cfg refresh_tok now with
  | .error e => .error e
  | .ok payload =>
    if payload.typ ≠ "refresh" then .error .wrongTokenKind
    else
      match payload.sub, payload.jti with
      | some user_id, some token_jti =>
        if user_id = "" ∨ token_jti = "" then .error .malformedPayload
        else
          match db.refresh_tokens.find? (fun r =>
            r.id == token_jti && r.user_id == user_id &&
            r.is_revoked == false && decide (now < r.expires_at)) with
          | none => .error .refreshNotFoundOrExpired
          | some stored =>
            match db.users.find? (fun u => u.id == user_id) with
            | none => .error .userNotFoundOrInactive
            | some user =>
              if user.is_active = false then .error .userNotFoundOrInactive
              else .ok (stored, user)
      | _, _ => .error .malformedPayload

/-- The write half of `refresh_tokens` (`auth_service.py:435` – `454`):
mint the new pair, set `is_revoked = true / revoked_at = now` on the row
found by the read half — an `UPDATE` keyed on the primary key alone,
with no `is_revoked = false` condition at write time — insert the new
refresh row, commit.  Total: it cannot fail. -/
def refresh_write (cfg : AuthConfig) (stored : RefreshTokenRec)
    (user : UserRec) (db : Db) (now : Nat) (e : Entropy) :
    TokenResponse × Db :=
  let perms := get_user_permissions user
  let data : TokenData :=
    { sub := user.id, email := user.email, role := user.role
      name := user.full_name, permissions := perms }
  let new_access := create_access_token cfg data now e.access_jti none
  let (new_refresh, new_refresh_id) :=
    create_refresh_token cfg user.id now e.refresh_jti
  let db1 := { db with refresh_tokens :=
    db.refresh_tokens.map (revokeById stored.id now) }
  let db2 := save_refresh_token cfg db1 user.id new_refresh_id e.token_salt now
  ({ access_token := new_access
     refresh_token := new_refresh
     token_type := "bearer"
     expires_in := cfg.access_token_expire_minutes * 60
     user := user_to_dict user
     message := "Токены успешно обновлены" }, db2)

/-- `refresh_tokens` (`auth_service.py:401`): the read half followed by
the write half; the blanket `except Exception` wraps every failure in
"Ошибка обновления токенов". -/
def refresh_tokens (cfg : AuthConfig) (refresh_tok : TokenStr) (db : Db)
    (now : Nat) (e : Entropy) : Except Err TokenResponse × Db :=
  match refresh_read cfg refresh_tok db now with
  | .error err => (.error (.wrapped .refreshFailed err), db)
  | .ok (stored, user) =>
    let (res, db2) := refresh_write cfg stored user db now e
    (.ok res, db2)

/-- `logout_all_devices` (`auth_service.py:481`): one bulk `UPDATE`
setting `is_revoked = true / revoked_at = now` on every row of the user
with `is_revoked = false`, then commit. -/
def logout_all_devices (user_id : String) (db : Db) (now : Nat) :
    Except Err String × Db :=
  let db1 := { db with refresh_tokens :=
    db.refresh_tokens.map (revokeByUser user_id now) }
  (.ok "Выполнен выход со всех устройств", db1)

/-- `logout` (`auth_service.py:468`): resolve the subject via
`get_current_user`, then revoke all of the subject's refresh rows; the
blanket handler wraps failures in "Ошибка выхода". -/
def logout (cfg : AuthConfig) (token : TokenStr) (db : Db) (now : Nat) :
    Except Err String × Db :=
  match get_current_user cfg token db now with
  | .error e => (.error (.wrapped .logoutFailed e), db)
  | .ok u => logout_all_devices u.id db now

/-- `change_password` (`auth_service.py:502`): resolve the user, check
the new password length, set the new hash, revoke all refresh rows.
Its `ValueError`s are re-raised unwrapped. -/
def change_password (cfg : AuthConfig) (token : TokenStr)
    (new_password : String) (db : Db) (now : Nat) (pw_salt : String) :
    Except Err String × Db :=
  match get_current_user cfg token db now with
  | .error e => (.error e, db)
  | .ok current_user =>
    if current_user.id = "" then (.error .userUndetermined, db)
    else
      match db.users.find? (fun u => u.id == current_user.id) with
      | none => (.error .userNotFound, db)
      | some user =>
        if new_password.length < 6 then (.error .passwordTooShort, db)
        else
          let db1 := { db with users := db.users.map (fun v =>
            if v.id == user.id
            then { v with password_hash := hash_password new_password pw_salt
                          updated_at := now }
            else v) }
          match logout_all_devices user.id db1 now with
          | (_, db2) =>
            (.ok "Пароль успешно изменен. Выполнен выход со всех устройств.", db2)

/-- `reset_password_with_token` (`auth_service.py:576`): decode the
reset token (its own two PyJWT messages), require
`type == "password_reset"` and a subject, load the user, check the new
password length, set the new hash, revoke all refresh rows. -/
def reset_password_with_token (cfg : AuthConfig) (reset_token : TokenStr)
    (new_password : String) (db : Db) (now : Nat) (pw_salt : String) :
    Except Err String × Db :=
  match jwt_decode reset_token cfg.secret_key now with
  | .error .expiredSignature => (.error .resetTokenExpired, db)
  | .error .invalidToken => (.error .resetTokenInvalid, db)
  | .ok payload =>
    if payload.typ ≠ "password_reset" then (.error .wrongTokenKind, db)
    else
      match payload.sub with
      | none => (.error .malformedPayload, db)
      | some user_id =>
        if user_id = "" then (.error .malformedPayload, db)
        else
          match db.users.find? (fun u => u.id == user_id) with
          | none => (.error .userNotFound, db)
          | some user =>
            if new_password.length < 6 then (.error .passwordTooShort, db)
            else
              let db1 := { db with users := db.users.map (fun v =>
                if v.id == user.id
                then { v with password_hash := hash_password new_password pw_salt
                              updated_at := now }
                else v) }
              match logout_all_devices user.id db1 now with
              | (_, db2) =>
                (.ok "Пароль успешно сброшен. Выполнен выход со всех устройств.", db2)

/-- `register` (`auth_service.py:202`): validate, reject an existing
email, hash the password, insert and **commit** the new user row
(`is_active = false` exactly when the role is `teacher`), then attempt
the automatic login on the committed state.  A `ValueError` from that
login is re-raised without rollback, so the committed row stays. -/
def register (cfg : AuthConfig) (d : RegisterData) (db : Db) (now : Nat)
    (e : Entropy) (new_user_id pw_salt : String) :
    Except Err TokenResponse × Db :=
  let email := pyLower (pyStrip d.email)
  let password := d.password
  let full_name := pyStrip d.full_name
  let role := d.role
  if email = "" ∨ '@' ∉ email.data then (.error .invalidEmailFormat, db)
  else if password = "" ∨ password.length < 6 then (.error .passwordTooShort, db)
  else if full_name = "" ∨ full_name.length < 2 then (.error .nameTooShort, db)
  else
    match db.users.find? (fun u => u.email == email) with
    | some _ => (.error .emailTaken, db)
    | none =>
      let user : UserRec :=
        { id := new_user_id
          email := email
          full_name := full_name
          phone := d.phone
          role := role
          max_students := d.max_students
          password_hash := hash_password password pw_salt
          is_active := !(role == "teacher")
          created_at := now
          updated_at := now
          last_login := none }
      let db1 := { db with users := db.users ++ [user] }
      match login_with_email_password cfg email password db1 now e with
      | (.error err, db2) => (.error err, db2)
      | (.ok res, db2) =>
        let msg := if role == "teacher"
          then "Регистрация успешна. Ожидайте активации администратором."
          else "Регистрация успешна. Аккаунт активирован."
        (.ok { res with message := msg }, db2)

end AuthService

/-! ## The session engine's operations as a single step relation -/

/-- One invocation of a state-changing operation of the session engine,
with its caller-supplied arguments and the randomness it draws. -/
inductive Op where
  | loginOp (email password : String) (e : Entropy)
  | refreshOp (tok : TokenStr) (e : Entropy)
  | logoutOp (tok : TokenStr)
  | logoutAllOp (user_id : String)
  | changePasswordOp (tok : TokenStr) (new_password pw_salt : String)
  | resetPasswordOp (tok : TokenStr) (new_password pw_salt : String)
  | registerOp (d : RegisterData) (e : Entropy) (new_user_id pw_salt : String)
  deriving Repr

/-- The database state after one operation (success or failure: a
failed call leaves whatever it had already committed). -/
def applyOp (cfg : AuthConfig) (op : Op) (db : Db) (now : Nat) : Db :=
  match op with
  | .loginOp email password e =>
    (AuthService.login_with_email_password cfg email password db now e).2
  | .refreshOp tok e => (AuthService.refresh_tokens cfg tok db now e).2
  | .logoutOp tok => (AuthService.logout cfg tok db now).2
  | .logoutAllOp user_id => (AuthService.logout_all_devices user_id db now).2
  | .changePasswordOp tok new_password pw_salt =>
    (AuthService.change_password cfg tok new_password db now pw_salt).2
  | .resetPasswordOp tok new_password pw_salt =>
    (AuthService.reset_password_with_token cfg tok new_password db now pw_salt).2
  | .registerOp d e new_user_id pw_salt =>
    (AuthService.register cfg d db now e new_user_id pw_salt).2

/-- Freshness of the uuid4 draws an operation consumes: the primary-key
constraint of `refresh_tokens` (`schema.py:51`) guarantees an inserted
row id collides with no existing row. -/
def opFresh (op : Op) (db : Db) : Prop :=
  match op with
  | .loginOp _ _ e => e.refresh_jti ∉ db.refresh_tokens.map (·.id)
  | .refreshOp _ e => e.refresh_jti ∉ db.refresh_tokens.map (·.id)
  | .registerOp _ e _ _ => e.refresh_jti ∉ db.refresh_tokens.map (·.id)
  | _ => True

/-! ## Concrete fixtures for witnesses and counterexamples -/

/-- A concrete service configuration (the constructor defaults). -/
def testCfg : AuthConfig :=
  { secret_key := "k"
    access_token_expire_minutes := 1440
    refresh_token_expire_days := 30 }

/-- A concrete active teacher account. -/
def alice : UserRec :=
  { id := "u1"
    email := "a@u.edu"
    full_name := "Alice"
    phone := ""
    role := "teacher"
    max_students := 20
    password_hash := bcrypt_hashpw "correct" "saltA"
    is_active := true
    created_at := 0
    updated_at := 0
    last_login := none }

/-- A concrete live refresh record for `alice`. -/
def rec0 : RefreshTokenRec :=
  { id := "j0"
    user_id := "u1"
    token_hash := bcrypt_hashpw "j0" "saltT"
    expires_at := 1000000
    created_at := 0
    revoked_at := none
    is_revoked := false }

/-- A concrete store: one active account, one live refresh record. -/
def db0 : Db :=
  { users := [alice], refresh_tokens := [rec0], teacher_requests := [] }

/-- The payload of the refresh token matching `rec0`. -/
def refreshP0 : JwtPayload :=
  { sub := some "u1", email := none, role := none, name := none
    permissions := none, exp := 1000000, iat := 0
    typ := "refresh", jti := some "j0" }

/-- The refresh token string matching `rec0`. -/
def r0 : TokenStr := .signed refreshP0 "k"

/-- Entropy of a first service call. -/
def ent1 : Entropy :=
  { access_jti := "aj1", refresh_jti := "j1", token_salt := "s1" }

/-- Entropy of a second service call. -/
def ent2 : Entropy :=
  { access_jti := "aj2", refresh_jti := "j2", token_salt := "s2" }

/-- Entropy of a third service call. -/
def ent3 : Entropy :=
  { access_jti := "aj3", refresh_jti := "j3", token_salt := "s3" }

/-- The account of `alice`, deactivated after her token was minted. -/
def aliceInactive : UserRec := { alice with is_active := false }

/-- A store in which `alice` has been deactivated. -/
def dbInactive : Db :=
  { users := [aliceInactive], refresh_tokens := [], teacher_requests := [] }

/-- A concrete access-token payload for `alice`. -/
def accessP : JwtPayload :=
  { sub := some "u1", email := some "a@u.edu", role := some "teacher",
    name := some "Alice", permissions := some noPermissions,
    exp := 1000, iat := 0, typ := "access", jti := some "aj0" }

/-- `rec0` after revocation. -/
def rec0Revoked : RefreshTokenRec :=
  { rec0 with is_revoked := true, revoked_at := some 50 }

/-- A store holding one already-revoked refresh record. -/
def db0Rev : Db :=
  { users := [alice], refresh_tokens := [rec0Revoked], teacher_requests := [] }

/-- A concrete teacher-role registration request. -/
def regBob : RegisterData :=
  { email := "  Bob@U.edu ", password := "secret1", full_name := " Bob T ",
    role := "teacher", phone := "", max_students := 20 }

/-- An empty store. -/
def dbEmpty : Db :=
  { users := [], refresh_tokens := [], teacher_requests := [] }

/-! ## Lemmas about the bcrypt model -/

theorem splitAtDollar_append (s p : List Char) (h : '$' ∉ s) :
    splitAtDollar (s ++ '$' :: p) = some (s, p) := by
  induction s with
  | nil => simp [splitAtDollar]
  | cons c cs ih =>
    simp only [List.mem_cons, not_or] at h
    have hc : ¬ c = '$' := fun hh => h.1 hh.symm
    simp [splitAtDollar, hc, ih h.2]

/-- Parsing recovers the salt and the digest of a well-salted hash. -/
theorem parseBcryptHash_hashpw (password salt : String) (h : validSalt salt) :
    parseBcryptHash (bcrypt_hashpw password salt) = some (salt, password) := by
  unfold validSalt at h
  simp [bcrypt_hashpw, parseBcryptHash, splitAtDollar_append _ _ h]

/-- `checkpw` against a well-salted hash is exactly the digest test. -/
theorem bcrypt_checkpw_hashpw (p s salt : String) (h : validSalt salt) :
    bcrypt_checkpw p (bcrypt_hashpw s salt) = .ok (s == p) := by
  simp [bcrypt_checkpw, parseBcryptHash_hashpw s salt h]

/-- Distinct (well-formed) salts give distinct hash strings. -/
theorem bcrypt_hashpw_salt_inj (pw s1 s2 : String) (h1 : validSalt s1)
    (h2 : validSalt s2) (hne : s1 ≠ s2) :
    bcrypt_hashpw pw s1 ≠ bcrypt_hashpw pw s2 := by
  intro he
  have hp := parseBcryptHash_hashpw pw s1 h1
  rw [he, parseBcryptHash_hashpw pw s2 h2] at hp
  simp only [Option.some.injEq, Prod.mk.injEq] at hp
  exact hne hp.1.symm

/-! ## Claim C8 -/

/-- C8: for every secret `s`, `verify(s, hash(s))` returns `true`, and
two calls of `hash(s)` — drawing two (necessarily distinct) random
salts — produce two different hash strings. -/
theorem C8_hash_verify (s salt1 salt2 : String)
    (h1 : validSalt salt1) (h2 : validSalt salt2) (hne : salt1 ≠ salt2) :
    AuthService.verify_password s (AuthService.hash_password s salt1) = .ok true ∧
    AuthService.hash_password s salt1 ≠ AuthService.hash_password s salt2 := by
  refine ⟨?_, bcrypt_hashpw_salt_inj s salt1 salt2 h1 h2 hne⟩
  simp [AuthService.verify_password, AuthService.hash_password,
    bcrypt_checkpw_hashpw s s salt1 h1]

/-- Witness for C8 at a concrete secret and two concrete salts. -/
theorem C8_hash_verify_witness :
    AuthService.verify_password "pw" (AuthService.hash_password "pw" "A") = .ok true ∧
    AuthService.hash_password "pw" "A" ≠ AuthService.hash_password "pw" "B" :=
  C8_hash_verify "pw" "A" "B" (by decide) (by decide) (by decide)

/-! ## Claim C6 (corrected) -/

/-- C6 counterexample: on the malformed hash string
`"not-a-bcrypt-hash"`, `_verify_password` does **not** return `false`;
it propagates bcrypt's `ValueError("Invalid salt")` — the claim's
"never raises, returns false on malformed input" fails. -/
theorem C6_counterexample :
    AuthService.verify_password "secret" "not-a-bcrypt-hash" =
        .error .invalidSalt ∧
      AuthService.verify_password "secret" "not-a-bcrypt-hash" ≠
        .ok false := by
  constructor
  · rfl
  · intro h
    simp [AuthService.verify_password, bcrypt_checkpw, parseBcryptHash] at h

/-- C6 amended: `_verify_password` raises bcrypt's invalid-salt error
on every hash string that does not parse as a bcrypt hash (instead of
returning `false`); on a well-formed hash it never raises and returns
the digest comparison. -/
theorem C6_verify_malformed (p s salt h_str : String) (hs : validSalt salt)
    (hmal : parseBcryptHash h_str = none) :
    AuthService.verify_password p h_str = .error .invalidSalt ∧
    AuthService.verify_password p (AuthService.hash_password s salt) =
      .ok (s == p) := by
  constructor
  · simp [AuthService.verify_password, bcrypt_checkpw, hmal]
  · simp [AuthService.verify_password, AuthService.hash_password,
      bcrypt_checkpw_hashpw p s salt hs]

/-- Witness for the amended C6. -/
theorem C6_verify_malformed_witness :
    AuthService.verify_password "a" "garbage" = .error .invalidSalt ∧
    AuthService.verify_password "a" (AuthService.hash_password "b" "S") =
      .ok ("b" == "a") :=
  C6_verify_malformed "a" "b" "S" "garbage" (by decide) (by rfl)

/-! ## Claim C9 -/

/-- C9: for every claim set and every `ttl > 0`, decoding a token
minted at `now` with that ttl succeeds at `now` and returns the minted
subject, role and permissions unchanged, with
`exp = iat + ttl` embedded. -/
theorem C9_mint_verify (cfg : AuthConfig) (data : TokenData) (now ttl : Nat)
    (jti : String) (httl : 0 < ttl) :
    AuthService.decode_token cfg
        (AuthService.create_access_token cfg data now jti (some ttl)) now =
      .ok { sub := some data.sub, email := some data.email,
            role := some data.role, name := some data.name,
            permissions := some data.permissions, exp := now + ttl,
            iat := now, typ := "access", jti := some jti } := by
  have h1 : ¬ now > now + ttl := by omega
  simp [AuthService.decode_token, AuthService.create_access_token,
    jwt_encode, jwt_decode, h1]

/-- Witness for C9 at a concrete claim set, `now = 5`, `ttl = 60`. -/
theorem C9_mint_verify_witness :
    0 < 60 ∧
    AuthService.decode_token testCfg
        (AuthService.create_access_token testCfg
          { sub := "u1", email := "a@u.edu", role := "teacher",
            name := "Alice", permissions := noPermissions } 5 "J" (some 60)) 5 =
      .ok { sub := some "u1", email := some "a@u.edu",
            role := some "teacher", name := some "Alice",
            permissions := some noPermissions, exp := 65,
            iat := 5, typ := "access", jti := some "J" } :=
  ⟨by decide,
   C9_mint_verify testCfg
     { sub := "u1", email := "a@u.edu", role := "teacher",
       name := "Alice", permissions := noPermissions } 5 60 "J" (by decide)⟩

/-! ## Claim C5 (corrected) -/

/-- C5 counterexample: for the concrete role `"director"` — outside the
closed set — `_get_user_permissions` does not fail with any
`UnknownRole` error: it is total and silently returns the all-`false`
permission map, exactly the behaviour the claim rules out. -/
theorem C5_counterexample :
    AuthService.get_user_permissions { alice with role := "director" } =
      noPermissions := by rfl

/-- C5 amended: for every role outside the closed set
`{admin, teacher, student}`, `_get_user_permissions` silently returns
the all-`false` permission map; no `UnknownRole` failure path exists in
the code. -/
theorem C5_unknown_role_silent (u : UserRec) (h1 : u.role ≠ "admin")
    (h2 : u.role ≠ "teacher") (h3 : u.role ≠ "student") :
    AuthService.get_user_permissions u = noPermissions := by
  simp [AuthService.get_user_permissions, beq_iff_eq, h1, h2, h3]

/-- Witness for the amended C5 at the concrete role `"superuser"`. -/
theorem C5_unknown_role_silent_witness :
    AuthService.get_user_permissions { alice with role := "superuser" } =
      noPermissions :=
  C5_unknown_role_silent _ (by decide) (by decide) (by decide)

/-! ## Claim C4 -/

/-- C4: for every access token with a valid signature and unexpired at
`now`, whose subject's account is inactive at call time, `authenticate`
(`get_current_user`) rejects with the account-inactive error — the
activity check is a fresh store lookup on every call. -/
theorem C4_deactivated_rejected (cfg : AuthConfig) (p : JwtPayload)
    (db : Db) (now : Nat) (u : UserRec) (uid : String)
    (htyp : p.typ = "access") (hsub : p.sub = some uid) (huid : uid ≠ "")
    (hexp : now ≤ p.exp)
    (hjti : ∀ j, p.jti = some j → AuthService.is_token_revoked j db = false)
    (hfind : db.users.find? (fun v => v.id == uid) = some u)
    (hinact : u.is_active = false) :
    AuthService.get_current_user cfg (.signed p cfg.secret_key) db now =
      .error (.wrapped .gettingUserFailed .userInactive) := by
  have hnow : ¬ now > p.exp := by omega
  cases hj : p.jti with
  | none =>
    simp [AuthService.get_current_user, AuthService.decode_token, jwt_decode,
      hnow, htyp, hsub, huid, hj, hfind, hinact, Except.mapError]
  | some j =>
    simp [AuthService.get_current_user, AuthService.decode_token, jwt_decode,
      hnow, htyp, hsub, huid, hj, hjti j hj, hfind, hinact, Except.mapError]

/-- Witness for C4: a live, unexpired access token for the
now-deactivated `alice` is rejected. -/
theorem C4_deactivated_rejected_witness :
    AuthService.get_current_user testCfg (.signed accessP testCfg.secret_key)
        dbInactive 100 =
      .error (.wrapped .gettingUserFailed .userInactive) :=
  C4_deactivated_rejected testCfg accessP dbInactive 100 aliceInactive "u1"
    (by decide) (by decide) (by decide) (by decide)
    (by intro j hj; cases hj; decide) (by decide) (by decide)

/-! ## Claim C2 (code bug)

Two concurrent `refresh(r0)` calls: each call is, against the store,
the `SELECT` of `refresh_read` (`auth_service.py:420` – `425`) followed
by the `UPDATE`+`INSERT`+`COMMIT` of `refresh_write`
(`auth_service.py:447` – `454`); `refresh_tokens` is literally their
composition.  In the interleaving `read₁, read₂, write₁, write₂`, both
reads see `rec0` with `is_revoked = false`, and because the `UPDATE` is
keyed on the primary key alone — there is no `is_revoked = false`
condition at write time and no check of the rows-affected count — both
writes go through and both calls return success, with both freshly
minted refresh chains (`j1` and `j2`) live in the final store. -/

/-- C2: at the concrete store `db0` (one live refresh record `j0`), the
interleaving `read₁, read₂, write₁, write₂` of two `refresh(r0)` calls
makes both calls succeed — both reads return the live row, the write
phase is total, and afterwards **two** unrevoked refresh records (`j1`
and `j2`) exist: the double-spend the spec's conditioned-update mandate
is there to prevent. -/
theorem C2_double_refresh_both_succeed :
    AuthService.refresh_read testCfg r0 db0 100 = .ok (rec0, alice) ∧
    ((AuthService.refresh_write testCfg rec0 alice
        (AuthService.refresh_write testCfg rec0 alice db0 100 ent1).2
        100 ent2).2.refresh_tokens.filter
          (fun r => r.is_revoked == false)).map (fun r => r.id) =
      ["j1", "j2"] := by
  exact ⟨rfl, rfl⟩

/-! ## Claim C1 -/

theorem find?_append_none {α} {p : α → Bool} {l1 l2 : List α}
    (h : l1.find? p = none) : (l1 ++ l2).find? p = l2.find? p := by
  simp [List.find?_append, h]

/-- `revokeById` never changes the primary key. -/
theorem revokeById_id (sid : String) (now : Nat) (r : RefreshTokenRec) :
    (AuthService.revokeById sid now r).id = r.id := by
  unfold AuthService.revokeById; split <;> rfl

/-- `revokeByUser` never changes the primary key. -/
theorem revokeByUser_id (uid : String) (now : Nat) (r : RefreshTokenRec) :
    (AuthService.revokeByUser uid now r).id = r.id := by
  unfold AuthService.revokeByUser; split <;> rfl

/-- Success characterisation of the read half of `refresh_tokens`: with
a well-typed unexpired refresh token, a live stored row and an active
user, the read half returns exactly that row and user. -/
theorem refresh_read_ok (cfg : AuthConfig) (p0 : JwtPayload) (db : Db)
    (now : Nat) (uid j0 : String) (stored : RefreshTokenRec) (u : UserRec)
    (htyp : p0.typ = "refresh") (hsub : p0.sub = some uid)
    (hjti : p0.jti = some j0) (huid : uid ≠ "") (hj0 : j0 ≠ "")
    (hexp : now ≤ p0.exp)
    (hfind : db.refresh_tokens.find? (fun r =>
      r.id == j0 && r.user_id == uid && !r.is_revoked &&
      decide (now < r.expires_at)) = some stored)
    (huser : db.users.find? (fun v => v.id == uid) = some u)
    (hact : u.is_active = true) :
    AuthService.refresh_read cfg (.signed p0 cfg.secret_key) db now =
      .ok (stored, u) := by
  have hnow : ¬ now > p0.exp := by omega
  simp [AuthService.refresh_read, AuthService.decode_token, jwt_decode,
    hnow, htyp, hsub, hjti, huid, hj0, hfind, huser, hact]

/-- Failure characterisation of the read half: when the filtered
`SELECT` finds no row (not found / revoked / expired), the read half
fails with the replay error. -/
theorem refresh_read_replay (cfg : AuthConfig) (p0 : JwtPayload) (db : Db)
    (now : Nat) (uid j0 : String)
    (htyp : p0.typ = "refresh") (hsub : p0.sub = some uid)
    (hjti : p0.jti = some j0) (huid : uid ≠ "") (hj0 : j0 ≠ "")
    (hexp : now ≤ p0.exp)
    (hnone : db.refresh_tokens.find? (fun r =>
      r.id == j0 && r.user_id == uid && !r.is_revoked &&
      decide (now < r.expires_at)) = none) :
    AuthService.refresh_read cfg (.signed p0 cfg.secret_key) db now =
      .error .refreshNotFoundOrExpired := by
  have hnow : ¬ now > p0.exp := by omega
  simp [AuthService.refresh_read, AuthService.decode_token, jwt_decode,
    hnow, htyp, hsub, hjti, huid, hj0, hnone]

/-- C1: refresh is not idempotent.  Whenever `refresh(r0)` succeeds
(returning a new pair whose refresh token is `r1`), an immediate second
`refresh(r0)` fails with the replay error ("Refresh токен не найден или
истек", the `RevokedOrUnknown` kind, wrapped by the refresh handler)
because the first call revoked `r0`'s record, while `refresh(r1)`
succeeds. -/
theorem C1_refresh_not_idempotent (cfg : AuthConfig) (p0 : JwtPayload)
    (db : Db) (now : Nat) (uid j0 : String) (stored : RefreshTokenRec)
    (u : UserRec) (e1 e2 e3 : Entropy)
    (htyp : p0.typ = "refresh") (hsub : p0.sub = some uid)
    (hjti : p0.jti = some j0) (huid : uid ≠ "") (hj0 : j0 ≠ "")
    (hexp : now ≤ p0.exp)
    (hfind : db.refresh_tokens.find? (fun r =>
      r.id == j0 && r.user_id == uid && !r.is_revoked &&
      decide (now < r.expires_at)) = some stored)
    (huser : db.users.find? (fun v => v.id == uid) = some u)
    (hact : u.is_active = true)
    (hdays : 0 < cfg.refresh_token_expire_days)
    (hfresh : e1.refresh_jti ∉ db.refresh_tokens.map (fun r => r.id))
    (hjne : e1.refresh_jti ≠ "") :
    ∃ (res1 : TokenResponse) (db1 : Db),
      AuthService.refresh_tokens cfg (.signed p0 cfg.secret_key) db now e1 =
        (.ok res1, db1) ∧
      (AuthService.refresh_tokens cfg (.signed p0 cfg.secret_key) db1 now e2).1 =
        .error (.wrapped .refreshFailed .refreshNotFoundOrExpired) ∧
      ∃ res3 : TokenResponse,
        (AuthService.refresh_tokens cfg res1.refresh_token db1 now e3).1 =
          .ok res3 := by
  have hread := refresh_read_ok cfg p0 db now uid j0 stored u htyp hsub hjti
    huid hj0 hexp hfind huser hact
  have hp := List.find?_some hfind
  simp only [Bool.and_eq_true, beq_iff_eq, Bool.not_eq_true',
    decide_eq_true_eq] at hp
  obtain ⟨⟨⟨hsid, hsuid⟩, hsrev⟩, hsexp⟩ := hp
  have hu : u.id = uid := by
    have := List.find?_some huser
    simpa [beq_iff_eq] using this
  have hsmem : stored ∈ db.refresh_tokens := List.mem_of_find?_eq_some hfind
  have hj0mem : j0 ∈ db.refresh_tokens.map (fun r => r.id) := by
    exact List.mem_map.mpr ⟨stored, hsmem, hsid⟩
  have hjne0 : e1.refresh_jti ≠ j0 := fun h => hfresh (h ▸ hj0mem)
  have hdb1 : (AuthService.refresh_write cfg stored u db now e1).2.refresh_tokens =
      db.refresh_tokens.map (AuthService.revokeById stored.id now) ++
      [{ id := e1.refresh_jti, user_id := u.id,
         token_hash := AuthService.hash_token e1.refresh_jti e1.token_salt,
         expires_at := now + cfg.refresh_token_expire_days * 86400,
         created_at := now, revoked_at := none, is_revoked := false }] := rfl
  have hdb1users :
      (AuthService.refresh_write cfg stored u db now e1).2.users = db.users := rfl
  refine ⟨(AuthService.refresh_write cfg stored u db now e1).1,
          (AuthService.refresh_write cfg stored u db now e1).2, ?_, ?_, ?_⟩
  · simp [AuthService.refresh_tokens, hread]
  · -- second refresh(r0): the stored row is now revoked, the appended
    -- row has a fresh id, so the filtered SELECT finds nothing
    have hnone1 : (db.refresh_tokens.map (AuthService.revokeById stored.id now)).find?
        (fun r => r.id == j0 && r.user_id == uid && !r.is_revoked &&
          decide (now < r.expires_at)) = none := by
      rw [List.find?_eq_none]
      intro x hx
      obtain ⟨r, hr, rfl⟩ := List.mem_map.mp hx
      by_cases hid : r.id = stored.id
      · simp [AuthService.revokeById, hid]
      · have hne : r.id ≠ j0 := by rw [← hsid]; exact hid
        simp [AuthService.revokeById, hid, hne]
    have hpredj0 : (e1.refresh_jti == j0) = false :=
      beq_eq_false_iff_ne.mpr hjne0
    have hnone : (AuthService.refresh_write cfg stored u db now e1).2.refresh_tokens.find?
        (fun r => r.id == j0 && r.user_id == uid && !r.is_revoked &&
          decide (now < r.expires_at)) = none := by
      rw [hdb1, find?_append_none hnone1]
      simp [List.find?, hpredj0]
    have hfail := refresh_read_replay cfg p0
      (AuthService.refresh_write cfg stored u db now e1).2 now uid j0
      htyp hsub hjti huid hj0 hexp hnone
    simp [AuthService.refresh_tokens, hfail]
  · -- refresh(r1): the freshly inserted row is live and matches
    have hnone2 : (db.refresh_tokens.map (AuthService.revokeById stored.id now)).find?
        (fun r => r.id == e1.refresh_jti && r.user_id == u.id &&
          !r.is_revoked && decide (now < r.expires_at)) = none := by
      rw [List.find?_eq_none]
      intro x hx
      obtain ⟨r, hr, rfl⟩ := List.mem_map.mp hx
      have h1 : r.id ≠ e1.refresh_jti := fun h =>
        hfresh (List.mem_map.mpr ⟨r, hr, h⟩)
      simp [revokeById_id, h1]
    have hlt : now < now + cfg.refresh_token_expire_days * 86400 := by
      have : 0 < cfg.refresh_token_expire_days * 86400 :=
        Nat.mul_pos hdays (by decide)
      omega
    have hfind3 : (AuthService.refresh_write cfg stored u db now e1).2.refresh_tokens.find?
        (fun r => r.id == e1.refresh_jti && r.user_id == u.id &&
          !r.is_revoked && decide (now < r.expires_at)) =
        some { id := e1.refresh_jti, user_id := u.id,
               token_hash := AuthService.hash_token e1.refresh_jti e1.token_salt,
               expires_at := now + cfg.refresh_token_expire_days * 86400,
               created_at := now, revoked_at := none, is_revoked := false } := by
      rw [hdb1, find?_append_none hnone2]
      simp [List.find?, hlt, hdays]
    have huser3 : (AuthService.refresh_write cfg stored u db now e1).2.users.find?
        (fun v => v.id == u.id) = some u := by
      rw [hdb1users, hu]; exact huser
    have huid3 : u.id ≠ "" := by rw [hu]; exact huid
    have hres1tok : (AuthService.refresh_write cfg stored u db now e1).1.refresh_token =
        .signed { sub := some u.id, email := none, role := none, name := none,
                  permissions := none,
                  exp := now + cfg.refresh_token_expire_days * 86400, iat := now,
                  typ := "refresh", jti := some e1.refresh_jti } cfg.secret_key := rfl
    have hread3 := refresh_read_ok cfg
      { sub := some u.id, email := none, role := none, name := none,
        permissions := none,
        exp := now + cfg.refresh_token_expire_days * 86400, iat := now,
        typ := "refresh", jti := some e1.refresh_jti }
      (AuthService.refresh_write cfg stored u db now e1).2 now u.id e1.refresh_jti
      { id := e1.refresh_jti, user_id := u.id,
        token_hash := AuthService.hash_token e1.refresh_jti e1.token_salt,
        expires_at := now + cfg.refresh_token_expire_days * 86400,
        created_at := now, revoked_at := none, is_revoked := false } u
      rfl rfl rfl huid3 hjne (Nat.le_add_right _ _) hfind3 huser3 hact
    rw [hres1tok]
    exact ⟨(AuthService.refresh_write cfg
      { id := e1.refresh_jti, user_id := u.id,
        token_hash := AuthService.hash_token e1.refresh_jti e1.token_salt,
        expires_at := now + cfg.refresh_token_expire_days * 86400,
        created_at := now, revoked_at := none, is_revoked := false } u
      (AuthService.refresh_write cfg stored u db now e1).2 now e3).1,
      by simp [AuthService.refresh_tokens, hread3]⟩

/-- Witness for C1 at the concrete store `db0`, token `r0` and three
concrete entropy draws. -/
theorem C1_refresh_not_idempotent_witness :
    ∃ (res1 : TokenResponse) (db1 : Db),
      AuthService.refresh_tokens testCfg (.signed refreshP0 testCfg.secret_key)
          db0 100 ent1 = (.ok res1, db1) ∧
      (AuthService.refresh_tokens testCfg (.signed refreshP0 testCfg.secret_key)
          db1 100 ent2).1 =
        .error (.wrapped .refreshFailed .refreshNotFoundOrExpired) ∧
      ∃ res3 : TokenResponse,
        (AuthService.refresh_tokens testCfg res1.refresh_token db1 100 ent3).1 =
          .ok res3 :=
  C1_refresh_not_idempotent testCfg refreshP0 db0 100 "u1" "j0" rec0 alice
    ent1 ent2 ent3 (by rfl) (by rfl) (by rfl) (by decide) (by decide)
    (by decide) (by decide) (by decide) (by rfl) (by decide) (by decide)
    (by decide)

/-! ## Claim C7 -/

/-- `revokeByUser` preserves the owning account id. -/
theorem revokeByUser_user_id (uid : String) (now : Nat) (r : RefreshTokenRec) :
    (AuthService.revokeByUser uid now r).user_id = r.user_id := by
  unfold AuthService.revokeByUser; split <;> rfl

/-- A row of the targeted user is revoked after the bulk update
(whether it was live, in which case the update hits it, or already
revoked, in which case it stays revoked). -/
theorem revokeByUser_revokes (uid : String) (now : Nat) (r : RefreshTokenRec)
    (h : r.user_id = uid) :
    (AuthService.revokeByUser uid now r).is_revoked = true := by
  unfold AuthService.revokeByUser
  by_cases hb : (r.user_id == uid && r.is_revoked == false) = true
  · simp only [Bool.and_eq_true, beq_iff_eq] at hb
    simp [hb.1, hb.2]
  · simp only [beq_iff_eq, h, Bool.and_eq_true, true_and,
      Bool.not_eq_true] at hb
    simp [h, hb]

/-- When no stored row carries the id `j`, the revocation check for `j`
is negative. -/
theorem is_token_revoked_eq_false (j : String) (db : Db)
    (h : ∀ r ∈ db.refresh_tokens, r.id ≠ j) :
    AuthService.is_token_revoked j db = false := by
  unfold AuthService.is_token_revoked
  have hnone : db.refresh_tokens.find? (fun r => r.id == j && r.is_revoked) = none := by
    rw [List.find?_eq_none]
    intro x hx
    simp [h x hx]
  rw [hnone]; rfl

/-- Success characterisation of `get_current_user`: an unexpired
well-typed access token with an unrevoked `jti` and an active subject
resolves to the subject's dict. -/
theorem get_current_user_ok (cfg : AuthConfig) (p : JwtPayload) (db : Db)
    (now : Nat) (u : UserRec) (uid : String)
    (htyp : p.typ = "access") (hsub : p.sub = some uid) (huid : uid ≠ "")
    (hexp : now ≤ p.exp)
    (hjti : ∀ j, p.jti = some j → AuthService.is_token_revoked j db = false)
    (hfind : db.users.find? (fun v => v.id == uid) = some u)
    (hact : u.is_active = true) :
    AuthService.get_current_user cfg (.signed p cfg.secret_key) db now =
      .ok (AuthService.user_to_dict u) := by
  have hnow : ¬ now > p.exp := by omega
  cases hj : p.jti with
  | none =>
    simp [AuthService.get_current_user, AuthService.decode_token, jwt_decode,
      hnow, htyp, hsub, huid, hj, hfind, hact, Except.mapError]
  | some j =>
    simp [AuthService.get_current_user, AuthService.decode_token, jwt_decode,
      hnow, htyp, hsub, huid, hj, hjti j hj, hfind, hact, Except.mapError]

/-- C7: `logout` with a valid access token whose subject is `u` revokes
**all** of `u`'s refresh records (logout-everywhere), and afterwards
`authenticate` with the very same access token still succeeds at any
instant `now2` within the token's lifetime — logout does not revoke
access tokens, it only blocks future refreshes.  (The `jti` of an
access token is a fresh uuid, so it matches no stored refresh-record
id: hypothesis `hjti`.) -/
theorem C7_logout_everywhere (cfg : AuthConfig) (p : JwtPayload) (db : Db)
    (now now2 : Nat) (u : UserRec) (uid : String)
    (htyp : p.typ = "access") (hsub : p.sub = some uid) (huid : uid ≠ "")
    (hexp : now ≤ p.exp) (hexp2 : now2 ≤ p.exp)
    (hjti : ∀ j, p.jti = some j → ∀ r ∈ db.refresh_tokens, r.id ≠ j)
    (hfind : db.users.find? (fun v => v.id == uid) = some u)
    (hact : u.is_active = true) :
    (AuthService.logout cfg (.signed p cfg.secret_key) db now).1 =
      .ok "Выполнен выход со всех устройств" ∧
    (∀ r ∈ (AuthService.logout cfg (.signed p cfg.secret_key) db now).2.refresh_tokens,
        r.user_id = u.id → r.is_revoked = true) ∧
    AuthService.get_current_user cfg (.signed p cfg.secret_key)
        (AuthService.logout cfg (.signed p cfg.secret_key) db now).2 now2 =
      .ok (AuthService.user_to_dict u) := by
  have hgcu := get_current_user_ok cfg p db now u uid htyp hsub huid hexp
    (fun j hj => is_token_revoked_eq_false j db (hjti j hj)) hfind hact
  have hlogout : AuthService.logout cfg (.signed p cfg.secret_key) db now =
      (.ok "Выполнен выход со всех устройств",
       { db with refresh_tokens :=
           db.refresh_tokens.map (AuthService.revokeByUser u.id now) }) := by
    simp [AuthService.logout, hgcu, AuthService.logout_all_devices,
      AuthService.user_to_dict]
  refine ⟨by rw [hlogout], ?_, ?_⟩
  · rw [hlogout]
    intro r hr hruid
    obtain ⟨r0, hr0, rfl⟩ := List.mem_map.mp hr
    rw [revokeByUser_user_id] at hruid
    exact revokeByUser_revokes u.id now r0 hruid
  · rw [hlogout]
    refine get_current_user_ok cfg p _ now2 u uid htyp hsub huid hexp2 ?_ hfind hact
    intro j hj
    apply is_token_revoked_eq_false
    intro r hr
    obtain ⟨r0, hr0, rfl⟩ := List.mem_map.mp hr
    rw [show (AuthService.revokeByUser u.id now r0).id = r0.id from
      revokeByUser_id u.id now r0]
    exact hjti j hj r0 hr0

/-- Witness for C7 at the concrete store `db0` and `alice`'s access
token, re-authenticated at `now2 = 900 ≤ exp = 1000`. -/
theorem C7_logout_everywhere_witness :
    (AuthService.logout testCfg (.signed accessP testCfg.secret_key) db0 100).1 =
      .ok "Выполнен выход со всех устройств" ∧
    (∀ r ∈ (AuthService.logout testCfg (.signed accessP testCfg.secret_key)
        db0 100).2.refresh_tokens,
        r.user_id = alice.id → r.is_revoked = true) ∧
    AuthService.get_current_user testCfg (.signed accessP testCfg.secret_key)
        (AuthService.logout testCfg (.signed accessP testCfg.secret_key)
          db0 100).2 900 =
      .ok (AuthService.user_to_dict alice) :=
  C7_logout_everywhere testCfg accessP db0 100 900 alice "u1"
    (by rfl) (by rfl) (by decide) (by decide) (by decide)
    (by intro j hj; cases hj; decide) (by decide) (by decide)

/-! ## Claim C10 -/

/-- C10: registration is not atomic on failure.  For a `teacher`-role
request with valid fields, an email not yet registered and no teacher
request on file, `register` inserts and commits the new user row with
`is_active = false` and then always raises: its automatic-login step
rejects the inactive account ("Пользователь неактивен…"), the
`ValueError` is re-raised without rollback, and the committed row stays
in the store. -/
theorem C10_register_commits_then_fails (cfg : AuthConfig) (d : RegisterData)
    (db : Db) (now : Nat) (e : Entropy) (new_user_id pw_salt : String)
    (hrole : d.role = "teacher")
    (hne : pyLower (pyStrip d.email) ≠ "")
    (hat : '@' ∈ (pyLower (pyStrip d.email)).data)
    (hpw : 6 ≤ d.password.length)
    (hname : 2 ≤ (pyStrip d.full_name).length)
    (hnouser : ∀ u ∈ db.users, u.email ≠ pyLower (pyStrip d.email))
    (hnoreq : ∀ t ∈ db.teacher_requests, t.email ≠ pyLower (pyStrip d.email)) :
    (AuthService.register cfg d db now e new_user_id pw_salt).1 =
      .error .inactiveContactAdmin ∧
    ∃ u ∈ (AuthService.register cfg d db now e new_user_id pw_salt).2.users,
      u.id = new_user_id ∧ u.email = pyLower (pyStrip d.email) ∧
      u.is_active = false := by
  have hpne : d.password ≠ "" := by
    intro h; rw [h] at hpw; exact absurd hpw (by decide)
  have hplt : ¬ d.password.length < 6 := by omega
  have hfne : pyStrip d.full_name ≠ "" := by
    intro h; rw [h] at hname; exact absurd hname (by decide)
  have hflt : ¬ (pyStrip d.full_name).length < 2 := by omega
  have husers : db.users.find?
      (fun v => v.email == pyLower (pyStrip d.email)) = none := by
    rw [List.find?_eq_none]; intro x hx; simp [hnouser x hx]
  have hreqs : db.teacher_requests.find?
      (fun t => t.email == pyLower (pyStrip d.email)) = none := by
    rw [List.find?_eq_none]; intro x hx; simp [hnoreq x hx]
  have hreg : AuthService.register cfg d db now e new_user_id pw_salt =
      (.error .inactiveContactAdmin,
        { db with users := db.users ++
          [{ id := new_user_id, email := pyLower (pyStrip d.email),
             full_name := pyStrip d.full_name, phone := d.phone,
             role := d.role, max_students := d.max_students,
             password_hash := AuthService.hash_password d.password pw_salt,
             is_active := !(d.role == "teacher"),
             created_at := now, updated_at := now, last_login := none }] }) := by
    simp [AuthService.register, AuthService.login_with_email_password,
      hne, hat, hpne, hplt, hfne, hflt, husers, find?_append_none husers,
      List.find?, hrole, hreqs]
  rw [hreg]
  exact ⟨rfl,
    { id := new_user_id, email := pyLower (pyStrip d.email),
      full_name := pyStrip d.full_name, phone := d.phone,
      role := d.role, max_students := d.max_students,
      password_hash := AuthService.hash_password d.password pw_salt,
      is_active := !(d.role == "teacher"),
      created_at := now, updated_at := now, last_login := none },
    List.mem_append_right _ (List.mem_singleton_self _),
    rfl, rfl, by simp [hrole]⟩

/-- Witness for C10: registering `regBob` (role `teacher`) on the
empty store errors, yet leaves the committed inactive user row. -/
theorem C10_register_commits_then_fails_witness :
    (AuthService.register testCfg regBob dbEmpty 0 ent1 "nu1" "saltN").1 =
      .error .inactiveContactAdmin ∧
    ∃ u ∈ (AuthService.register testCfg regBob dbEmpty 0 ent1 "nu1" "saltN").2.users,
      u.id = "nu1" ∧ u.email = pyLower (pyStrip regBob.email) ∧
      u.is_active = false :=
  C10_register_commits_then_fails testCfg regBob dbEmpty 0 ent1 "nu1" "saltN"
    (by rfl) (by decide) (by decide) (by decide) (by decide)
    (by decide) (by decide)

/-! ## Claim C3 -/

/-- Rows identified by id (primary-key uniqueness `hnodup`) that are
revoked stay revoked across an id-preserving, revocation-preserving row
transformation. -/
theorem revoked_preserved_map (l : List RefreshTokenRec)
    (f : RefreshTokenRec → RefreshTokenRec)
    (hid : ∀ r, (f r).id = r.id)
    (hrev : ∀ r, r.is_revoked = true → (f r).is_revoked = true)
    (hnodup : (l.map (fun r => r.id)).Nodup) :
    ∀ r ∈ l, r.is_revoked = true → ∀ r2 ∈ l.map f, r2.id = r.id →
      r2.is_revoked = true := by
  intro r hr hrrev r2 hr2 hid2
  obtain ⟨r0, hr0, rfl⟩ := List.mem_map.mp hr2
  have h0 : r0 = r :=
    List.inj_on_of_nodup_map hnodup hr0 hr ((hid r0).symm.trans hid2)
  rw [h0]
  exact hrev r hrrev

/-- The untouched store preserves revocation. -/
theorem revoked_preserved_id (l : List RefreshTokenRec)
    (hnodup : (l.map (fun r => r.id)).Nodup) :
    ∀ r ∈ l, r.is_revoked = true → ∀ r2 ∈ l, r2.id = r.id →
      r2.is_revoked = true := by
  intro r hr hrrev r2 hr2 hid2
  have h0 : r2 = r := List.inj_on_of_nodup_map hnodup hr2 hr hid2
  rw [h0]
  exact hrrev

/-- Appending one row with a fresh id preserves revocation of the
existing rows. -/
theorem revoked_preserved_append (l l2 : List RefreshTokenRec)
    (nrec : RefreshTokenRec)
    (hbase : ∀ r ∈ l, r.is_revoked = true → ∀ r2 ∈ l2, r2.id = r.id →
      r2.is_revoked = true)
    (hfresh : nrec.id ∉ l.map (fun r => r.id)) :
    ∀ r ∈ l, r.is_revoked = true → ∀ r2 ∈ l2 ++ [nrec], r2.id = r.id →
      r2.is_revoked = true := by
  intro r hr hrrev r2 hr2 hid2
  rcases List.mem_append.mp hr2 with h | h
  · exact hbase r hr hrrev r2 h hid2
  · rw [List.mem_singleton] at h
    subst h
    exact absurd (by rw [hid2]; exact List.mem_map.mpr ⟨r, hr, rfl⟩) hfresh

/-- `revokeById` never un-revokes. -/
theorem revokeById_keeps (sid : String) (now : Nat) (r : RefreshTokenRec)
    (h : r.is_revoked = true) :
    (AuthService.revokeById sid now r).is_revoked = true := by
  unfold AuthService.revokeById
  split
  · rfl
  · exact h

/-- `revokeByUser` never un-revokes. -/
theorem revokeByUser_keeps (uid : String) (now : Nat) (r : RefreshTokenRec)
    (h : r.is_revoked = true) :
    (AuthService.revokeByUser uid now r).is_revoked = true := by
  unfold AuthService.revokeByUser
  split
  · rfl
  · exact h

/-- The refresh-record store after `login` is either unchanged (a
failure path) or the old store plus one freshly-minted row. -/
theorem login_shape (cfg : AuthConfig) (email password : String) (db : Db)
    (now : Nat) (e : Entropy) :
    (AuthService.login_with_email_password cfg email password db now
        e).2.refresh_tokens = db.refresh_tokens ∨
    ∃ rec1 : RefreshTokenRec, rec1.id = e.refresh_jti ∧
      (AuthService.login_with_email_password cfg email password db now
          e).2.refresh_tokens = db.refresh_tokens ++ [rec1] := by
  unfold AuthService.login_with_email_password
  split
  · exact .inl rfl
  · split
    · split
      · split
        · exact .inl rfl
        · split
          · exact .inl rfl
          · exact .inl rfl
      · exact .inl rfl
    · split
      · exact .inl rfl
      · split
        · exact .inl rfl
        · exact .inr ⟨_, rfl, rfl⟩

/-- The refresh-record store after `refresh_tokens` is either unchanged
(a failure path) or the rotation: one row revoked by id, one fresh row
appended. -/
theorem refresh_shape (cfg : AuthConfig) (tok : TokenStr) (db : Db)
    (now : Nat) (e : Entropy) :
    (AuthService.refresh_tokens cfg tok db now e).2.refresh_tokens =
      db.refresh_tokens ∨
    ∃ (sid : String) (rec1 : RefreshTokenRec), rec1.id = e.refresh_jti ∧
      (AuthService.refresh_tokens cfg tok db now e).2.refresh_tokens =
        db.refresh_tokens.map (AuthService.revokeById sid now) ++ [rec1] := by
  unfold AuthService.refresh_tokens
  split
  · exact .inl rfl
  · exact .inr ⟨_, _, rfl, rfl⟩

/-- The refresh-record store after `logout` is either unchanged or the
bulk per-user revocation. -/
theorem logout_shape (cfg : AuthConfig) (tok : TokenStr) (db : Db)
    (now : Nat) :
    (AuthService.logout cfg tok db now).2.refresh_tokens =
      db.refresh_tokens ∨
    ∃ uid, (AuthService.logout cfg tok db now).2.refresh_tokens =
      db.refresh_tokens.map (AuthService.revokeByUser uid now) := by
  unfold AuthService.logout
  split
  · exact .inl rfl
  · exact .inr ⟨_, rfl⟩

/-- The refresh-record store after `change_password` is either
unchanged or the bulk per-user revocation. -/
theorem change_password_shape (cfg : AuthConfig) (tok : TokenStr)
    (new_password : String) (db : Db) (now : Nat) (pw_salt : String) :
    (AuthService.change_password cfg tok new_password db now
        pw_salt).2.refresh_tokens = db.refresh_tokens ∨
    ∃ uid, (AuthService.change_password cfg tok new_password db now
        pw_salt).2.refresh_tokens =
      db.refresh_tokens.map (AuthService.revokeByUser uid now) := by
  unfold AuthService.change_password
  split
  · exact .inl rfl
  · split
    · exact .inl rfl
    · split
      · exact .inl rfl
      · split
        · exact .inl rfl
        · exact .inr ⟨_, rfl⟩

/-- The refresh-record store after `reset_password_with_token` is
either unchanged or the bulk per-user revocation. -/
theorem reset_password_shape (cfg : AuthConfig) (tok : TokenStr)
    (new_password : String) (db : Db) (now : Nat) (pw_salt : String) :
    (AuthService.reset_password_with_token cfg tok new_password db now
        pw_salt).2.refresh_tokens = db.refresh_tokens ∨
    ∃ uid, (AuthService.reset_password_with_token cfg tok new_password db now
        pw_salt).2.refresh_tokens =
      db.refresh_tokens.map (AuthService.revokeByUser uid now) := by
  unfold AuthService.reset_password_with_token
  split
  · exact .inl rfl
  · exact .inl rfl
  · split
    · exact .inl rfl
    · split
      · exact .inl rfl
      · split
        · exact .inl rfl
        · split
          · exact .inl rfl
          · split
            · exact .inl rfl
            · exact .inr ⟨_, rfl⟩

/-- The refresh-record store after `register` is either unchanged or
the old store plus one freshly-minted row (from the automatic login). -/
theorem register_shape (cfg : AuthConfig) (d : RegisterData) (db : Db)
    (now : Nat) (e : Entropy) (new_user_id pw_salt : String) :
    (AuthService.register cfg d db now e new_user_id
        pw_salt).2.refresh_tokens = db.refresh_tokens ∨
    ∃ rec1 : RefreshTokenRec, rec1.id = e.refresh_jti ∧
      (AuthService.register cfg d db now e new_user_id
          pw_salt).2.refresh_tokens = db.refresh_tokens ++ [rec1] := by
  unfold AuthService.register
  dsimp only
  split
  · exact .inl rfl
  · split
    · exact .inl rfl
    · split
      · exact .inl rfl
      · split
        · exact .inl rfl
        · split
          all_goals
            rename_i heq
          all_goals
            rcases login_shape cfg (pyLower (pyStrip d.email)) d.password
              { db with users := db.users ++
                [{ id := new_user_id, email := pyLower (pyStrip d.email),
                   full_name := pyStrip d.full_name, phone := d.phone,
                   role := d.role, max_students := d.max_students,
                   password_hash := AuthService.hash_password d.password pw_salt,
                   is_active := !(d.role == "teacher"),
                   created_at := now, updated_at := now,
                   last_login := none }] }
              now e with h | ⟨rec1, hrec, h⟩
          · rw [heq] at h; exact .inl h
          · rw [heq] at h; exact .inr ⟨rec1, hrec, h⟩
          · rw [heq] at h; exact .inl h
          · rw [heq] at h; exact .inr ⟨rec1, hrec, h⟩

/-- C3: revocation is permanent.  Across every operation of the session
engine — login, refresh, logout, logout-everywhere, password change,
password reset, registration — a refresh record with
`is_revoked = true` is never set back to `false`: every row carrying
its id in the post-state is still revoked.  `hnodup` is the store's
primary-key uniqueness (`schema.py:51`); `hfresh` is the freshness of
the inserted uuid4 row id. -/
theorem C3_revocation_permanent (cfg : AuthConfig) (op : Op) (db : Db)
    (now : Nat)
    (hnodup : (db.refresh_tokens.map (fun r => r.id)).Nodup)
    (hfresh : opFresh op db) :
    ∀ r ∈ db.refresh_tokens, r.is_revoked = true →
      ∀ r2 ∈ (applyOp cfg op db now).refresh_tokens, r2.id = r.id →
        r2.is_revoked = true := by
  cases op with
  | loginOp email pw e =>
    simp only [applyOp]
    rcases login_shape cfg email pw db now e with h | ⟨rec1, hrec, h⟩
    · rw [h]; exact revoked_preserved_id _ hnodup
    · rw [h]
      exact revoked_preserved_append _ _ _ (revoked_preserved_id _ hnodup)
        (by rw [hrec]; exact hfresh)
  | refreshOp tok e =>
    simp only [applyOp]
    rcases refresh_shape cfg tok db now e with h | ⟨sid, rec1, hrec, h⟩
    · rw [h]; exact revoked_preserved_id _ hnodup
    · rw [h]
      exact revoked_preserved_append _ _ _
        (revoked_preserved_map _ _ (revokeById_id sid now)
          (revokeById_keeps sid now) hnodup)
        (by rw [hrec]; exact hfresh)
  | logoutOp tok =>
    simp only [applyOp]
    rcases logout_shape cfg tok db now with h | ⟨uid, h⟩
    · rw [h]; exact revoked_preserved_id _ hnodup
    · rw [h]
      exact revoked_preserved_map _ _ (revokeByUser_id uid now)
        (revokeByUser_keeps uid now) hnodup
  | logoutAllOp uid =>
    simp only [applyOp]
    exact revoked_preserved_map _ _ (revokeByUser_id uid now)
      (revokeByUser_keeps uid now) hnodup
  | changePasswordOp tok npw salt =>
    simp only [applyOp]
    rcases change_password_shape cfg tok npw db now salt with h | ⟨uid, h⟩
    · rw [h]; exact revoked_preserved_id _ hnodup
    · rw [h]
      exact revoked_preserved_map _ _ (revokeByUser_id uid now)
        (revokeByUser_keeps uid now) hnodup
  | resetPasswordOp tok npw salt =>
    simp only [applyOp]
    rcases reset_password_shape cfg tok npw db now salt with h | ⟨uid, h⟩
    · rw [h]; exact revoked_preserved_id _ hnodup
    · rw [h]
      exact revoked_preserved_map _ _ (revokeByUser_id uid now)
        (revokeByUser_keeps uid now) hnodup
  | registerOp d e nuid salt =>
    simp only [applyOp]
    rcases register_shape cfg d db now e nuid salt with h | ⟨rec1, hrec, h⟩
    · rw [h]; exact revoked_preserved_id _ hnodup
    · rw [h]
      exact revoked_preserved_append _ _ _ (revoked_preserved_id _ hnodup)
        (by rw [hrec]; exact hfresh)

/-- Witness for C3: the logout-everywhere bulk update at the store
`db0Rev` keeps its revoked record `rec0Revoked` (which survives into
the post-state) revoked. -/
theorem C3_revocation_permanent_witness :
    rec0Revoked.is_revoked = true :=
  C3_revocation_permanent testCfg (.logoutAllOp "u1") db0Rev 100
    (by decide) (by trivial) rec0Revoked (by decide) (by decide)
    rec0Revoked (by decide) rfl
